import Mathlib

/-!
Verification of the fishbowl-strategy repository: a shallow embedding of the
signal/position state machine (`fishbowl_strategy.py`) and of the delivery
pipeline (`wechat_notifier.py`), together with theorems settling the frozen
claims about the natural-language specification.

Quote prices, ratios and clock times are modelled as rationals; pandas series
comparisons against a not-a-number value (rolling means over too little data)
are modelled with `Option ℚ`, where any comparison against `none` is false,
matching the pandas semantics that `x < NaN` and `x > NaN` are both false.
Fallible Python code (dictionary accesses that can raise `KeyError`, `max()`
over a possibly empty sequence) is modelled with `Except String`.
-/

namespace Fishbowl

/-- The last `n` elements of a list, as Python slicing `l[-n:]` produces for
`n ≥ 1` (the series handled here are indexed the same way). -/
def takeLast (n : Nat) (l : List α) : List α := l.drop (l.length - n)

/-- Comparison `a < m` where `m` may be missing (pandas NaN): false on `none`. -/
def optLt (a : ℚ) (m : Option ℚ) : Bool :=
  match m with
  | some v => decide (a < v)
  | none => false

/-- Comparison `a > m` where `m` may be missing (pandas NaN): false on `none`. -/
def optGt (a : ℚ) (m : Option ℚ) : Bool :=
  match m with
  | some v => decide (v < a)
  | none => false

/-- Comparison `a > b` on possibly-missing values: false unless both exist. -/
def optGtOO (a b : Option ℚ) : Bool :=
  match a, b with
  | some x, some y => decide (y < x)
  | _, _ => false

/-- `pandas.Series.rolling(window=w).mean()` over the close column: entry `i`
is the mean of entries `i+1-w .. i` when at least `w` entries are available,
and missing (NaN) otherwise. -/
def rollingMean (w : Nat) (l : List ℚ) : List (Option ℚ) :=
  (List.range l.length).map fun i =>
    if i + 1 < w then none
    else some (((l.drop (i + 1 - w)).take w).sum / (w : ℚ))

/-- Portfolio class: the two independently tracked strategies. -/
inductive PoolType
  | stable
  | aggressive
deriving DecidableEq, Repr

/-- The string key used for a portfolio class in the transaction records. -/
def poolKey : PoolType → String
  | .stable => "stable"
  | .aggressive => "aggressive"

/-- Strategy parameter set, `STRATEGY_PARAMS[pool_type]` in the source. -/
structure StrategyParams where
  ma_period : Nat
  confirm_days : Nat
  initial_position : ℚ
  add_position : List ℚ
  stop_loss_ratio : ℚ
  tracking_stop_ratio : ℚ
  max_position : ℚ
deriving DecidableEq, Repr

/-- `STRATEGY_PARAMS` from `fishbowl_strategy.py`. -/
def STRATEGY_PARAMS : PoolType → StrategyParams
  | .stable =>
    { ma_period := 20, confirm_days := 3, initial_position := 3/10,
      add_position := [2/10, 1/10], stop_loss_ratio := 15/100,
      tracking_stop_ratio := 5/100, max_position := 7/10 }
  | .aggressive =>
    { ma_period := 20, confirm_days := 2, initial_position := 2/10,
      add_position := [15/100], stop_loss_ratio := 15/100,
      tracking_stop_ratio := 3/100, max_position := 1/2 }

/-- A per-portfolio current position, `self.current_positions[pool_type]`. -/
structure Position where
  etf_code : String
  position : ℚ
  avg_price : ℚ
  stop_loss : ℚ
deriving DecidableEq, Repr

/-- The flat position every portfolio starts with and is reset to on SELL. -/
def flatPosition : Position :=
  { etf_code := "", position := 0, avg_price := 0, stop_loss := 0 }

/-- A ledger record, as appended by `_save_transaction` (the wall-clock
timestamp the source also stores is irrelevant to every claim and omitted).
`profit_ratio` is present on SELL records only, hence an `Option`. -/
structure Transaction where
  action : String
  etf_code : String
  etf_name : String
  price : ℚ
  position : ℚ
  reason : String
  profit_ratio : Option ℚ
  strategy_type : String
deriving DecidableEq, Repr

/-- A transient trading signal, the result dictionaries built by
`_check_buy_signal` / `_check_sell_signal` / `generate_signals`. Keys absent
from a given dictionary are modelled by `Option` fields left `none` (reading
such a key raises `KeyError` in the source, modelled with `Except`). -/
structure Signal where
  action : String
  reason : String
  etf_code : String
  etf_name : String := ""
  position : ℚ := 0
  price : Option ℚ := none
  stop_loss : Option ℚ := none
  profit_ratio : Option ℚ := none
  loss_ratio : Option ℚ := none
deriving DecidableEq, Repr

/-- An entry of the candidate pool returned by the selector. -/
structure EtfInfo where
  etf_code : String
  name : String
deriving DecidableEq, Repr

/-- The `price_break` condition of `_check_buy_signal`: elementwise
`close > ma` over the last `confirm_days` sessions (comparisons against a
missing rolling mean are false, as in pandas). -/
def price_break_cond (closes : List ℚ) (params : StrategyParams) : Bool :=
  ((takeLast params.confirm_days closes).zip
      (takeLast params.confirm_days (rollingMean params.ma_period closes))).all
    fun p => optGt p.1 p.2

/-- The `ma_trend` condition of `_check_buy_signal`: the latest rolling-mean
value strictly exceeds the previous one (false when either is missing). -/
def ma_trend_cond (closes : List ℚ) (params : StrategyParams) : Bool :=
  optGtOO (rollingMean params.ma_period closes).getLast?.join
    (rollingMean params.ma_period closes).dropLast.getLast?.join

/-- `_check_buy_signal`: `closes` is the close column fetched with the
`start_date` bound, `pools` is the concatenation of the stable and aggressive
candidate pools used for the name lookup. -/
def check_buy_signal (closes : List ℚ) (etf_code : String) (params : StrategyParams)
    (pools : List EtfInfo) : Signal :=
  if closes.length < params.ma_period then
    { action := "HOLD", reason := "数据不足", etf_code := etf_code, position := 0 }
  else
    if price_break_cond closes params && ma_trend_cond closes params then
      { action := "BUY",
        reason := toString params.confirm_days ++ "天站稳" ++
          toString params.ma_period ++ "日均线",
        etf_code := etf_code,
        etf_name := ((pools.find? fun e => e.etf_code == etf_code).map EtfInfo.name).getD "",
        position := params.initial_position,
        price := some (closes.getLastD 0),
        stop_loss := some (closes.getLastD 0 * (1 - params.stop_loss_ratio)) }
    else
      { action := "HOLD", reason := "未突破均线或趋势未确认", etf_code := etf_code, position := 0 }

/-- The rationale recorded when the fixed stop-loss fires. -/
def fixed_stop_reason (params : StrategyParams) : String :=
  "触发固定止损(" ++ toString (params.stop_loss_ratio * 100) ++ "%)"

/-- The rationale recorded on a moving-average breakdown. -/
def ma_break_reason (params : StrategyParams) : String :=
  toString params.confirm_days ++ "天跌破" ++ toString params.ma_period ++ "日均线"

/-- The rationale recorded when the trailing stop fires. -/
def tracking_stop_reason (params : StrategyParams) : String :=
  "触发跟踪止损(" ++ toString (params.tracking_stop_ratio * 100) ++ "%)"

/-- The moving-average-breakdown condition of `_check_sell_signal`:
`current_price < ma and quote_df.close.iloc[-confirm_days:].min() < ma`,
where `ma` is missing (NaN, every comparison false) when fewer than
`ma_period` sessions are available. -/
def ma_breakdown (closes : List ℚ) (params : StrategyParams) (current_price : ℚ) : Bool :=
  let ma := (rollingMean params.ma_period closes).getLast?.join
  optLt current_price ma &&
    (match (takeLast params.confirm_days closes).min? with
     | some m => optLt m ma
     | none => false)

/-- The BUY prices recorded in the ledger for the given instrument. -/
def ledger_buy_prices (history : List Transaction) (etf_code : String) : List ℚ :=
  (history.filter fun t => t.etf_code == etf_code && t.action == "BUY").map
    Transaction.price

/-- `_check_sell_signal`: `closes` is the full close series for the held
instrument. The source reads `self.current_positions[pool_type]`, but
`pool_type` is not bound anywhere in that function's scope (it is a parameter
of the callers only), so running the source raises `NameError` on this line;
the `current_pos` argument here models the dictionary entry the enclosing
`generate_signals(pool_type)` call intends. The unguarded `max()` over the
BUY records of the ledger raises `ValueError` when no such record exists,
modelled by the `Except.error` branch. -/
def check_sell_signal (closes : List ℚ) (current_pos : Position)
    (history : List Transaction) (params : StrategyParams) (etf_code : String) :
    Except String Signal :=
  match closes.getLast? with
  | none => .ok { action := "HOLD", reason := "数据不足", etf_code := etf_code, position := 0 }
  | some current_price =>
    if current_price ≤ current_pos.stop_loss then
      .ok { action := "SELL", reason := fixed_stop_reason params,
            etf_code := etf_code, position := 0, price := some current_price,
            loss_ratio := some ((current_price - current_pos.avg_price) / current_pos.avg_price) }
    else
      if ma_breakdown closes params current_price then
        .ok { action := "SELL", reason := ma_break_reason params,
              etf_code := etf_code, position := 0, price := some current_price,
              profit_ratio :=
                some ((current_price - current_pos.avg_price) / current_pos.avg_price) }
      else
        match (ledger_buy_prices history etf_code).max? with
        | none => .error "ValueError: max() arg is an empty sequence"
        | some max_price =>
          if max_price * (1 - params.tracking_stop_ratio) > current_price then
            .ok { action := "SELL", reason := tracking_stop_reason params,
                  etf_code := etf_code, position := 0, price := some current_price,
                  profit_ratio :=
                    some ((current_price - current_pos.avg_price) / current_pos.avg_price) }
          else
            .ok { action := "HOLD", reason := "未触发卖出条件", etf_code := etf_code,
                  position := current_pos.position }

/-- The external collaborators read by one evaluation cycle: the candidate
pools from the selector and, per instrument code, the close and ma20 columns
of `get_etf_quote(code)` as well as the close column of the date-bounded
fetch `get_etf_quote(code, start_date=...)` used by `_check_buy_signal`. -/
structure StratEnv where
  pool : PoolType → List EtfInfo
  close : String → List ℚ
  ma20 : String → List ℚ
  closeRecent : String → List ℚ

/-- `_select_best_etf`: rank the pool by trend strength `(price - ma) / ma`
(instruments without quote data are skipped), descending, and return the
strongest. Python's stable `sort(reverse=True)` is modelled by `mergeSort`
with the reversed comparison. -/
def select_best_etf (env : StratEnv) (etf_pool : List EtfInfo) : Option EtfInfo :=
  let candidates := etf_pool.filterMap fun etf =>
    let q := env.close etf.etf_code
    if q.isEmpty then none
    else
      let ma := (env.ma20 etf.etf_code).getLastD 0
      let price := q.getLastD 0
      some (etf, (price - ma) / ma)
  ((candidates.mergeSort fun a b => decide (b.2 ≤ a.2)).head?).map Prod.fst

/-- The mutable state of a `FishBowlStrategy` instance: the two current
positions and the transaction ledger (a fresh instance with no on-disk log
starts from the empty ledger). -/
structure StratState where
  stablePos : Position
  aggressivePos : Position
  transaction_history : List Transaction
deriving DecidableEq, Repr

/-- Read `self.current_positions[pool_type]`. -/
def StratState.pos (s : StratState) : PoolType → Position
  | .stable => s.stablePos
  | .aggressive => s.aggressivePos

/-- Overwrite `self.current_positions[pool_type]`. -/
def StratState.setPos (s : StratState) (pt : PoolType) (p : Position) : StratState :=
  match pt with
  | .stable => { s with stablePos := p }
  | .aggressive => { s with aggressivePos := p }

/-- `_save_transaction`: append to the ledger. -/
def StratState.addTx (s : StratState) (t : Transaction) : StratState :=
  { s with transaction_history := s.transaction_history ++ [t] }

/-- The state at `__init__` with no transaction log on disk. -/
def initial_state : StratState :=
  { stablePos := flatPosition, aggressivePos := flatPosition, transaction_history := [] }

/-- The tail of `generate_signals`: pick the strongest candidate and run the
buy check on it (reached only when the sell check did not say SELL). -/
def generate_buy_branch (env : StratEnv) (pt : PoolType) : Except String Signal :=
  match select_best_etf env (env.pool pt) with
  | none => .ok { action := "HOLD", reason := "无符合条件的ETF", etf_code := "", position := 0 }
  | some best =>
    let buy := check_buy_signal (env.closeRecent best.etf_code) best.etf_code
      (STRATEGY_PARAMS pt) (env.pool .stable ++ env.pool .aggressive)
    if buy.action == "BUY" then .ok buy
    else .ok { action := "HOLD", reason := "无交易信号", etf_code := "", position := 0 }

/-- `generate_signals(pool_type)`: held positions are checked for a SELL
first; only when that check does not yield SELL is the candidate selection
and the BUY check reached. -/
def generate_signals (env : StratEnv) (st : StratState) (pt : PoolType) :
    Except String Signal :=
  if (env.pool pt).isEmpty then
    .ok { action := "HOLD", reason := "股票池为空", etf_code := "", position := 0 }
  else
    let current_pos := st.pos pt
    let sellStep : Except String (Option Signal) :=
      if 0 < current_pos.position then
        (check_sell_signal (env.close current_pos.etf_code) current_pos
            st.transaction_history (STRATEGY_PARAMS pt) current_pos.etf_code).map
          fun s => if s.action == "SELL" then some s else none
      else .ok none
    sellStep.bind fun sellRes =>
      match sellRes with
      | some s => .ok s
      | none => generate_buy_branch env pt

/-- The structured result every `execute`-path call returns to the caller. -/
structure ExecResult where
  status : String
  action : String
  message : String
  etf_code : String
  etf_name : String := ""
  price : Option ℚ := none
  position : ℚ := 0
  profit_ratio : Option ℚ := none
  current_position : ℚ := 0
deriving DecidableEq, Repr

/-- `_execute_sell`: a signal for an instrument other than the held one is
reported as an error result without touching any state; otherwise a SELL
record is appended and the position is reset to flat. Reading the missing
`price` key of the rotation signal raises `KeyError` in the source, modelled
by the `Except.error` branch. -/
def execute_sell (sig : Signal) (pt : PoolType) (st : StratState) :
    Except String (ExecResult × StratState) :=
  let current_pos := st.pos pt
  if current_pos.etf_code ≠ sig.etf_code then
    .ok ({ status := "error", action := "SELL", message := "持仓不匹配",
           etf_code := sig.etf_code }, st)
  else
    match sig.price with
    | none => .error "KeyError: price"
    | some price =>
      let tx : Transaction :=
        { action := "SELL", etf_code := sig.etf_code, etf_name := "", price := price,
          position := current_pos.position, reason := sig.reason,
          profit_ratio := some (sig.profit_ratio.getD 0), strategy_type := poolKey pt }
      let st1 := (st.addTx tx).setPos pt flatPosition
      .ok ({ status := "success", action := "SELL",
             message := "卖出" ++ sig.etf_code ++ "，" ++ sig.reason,
             etf_code := sig.etf_code, price := some price,
             profit_ratio := some (sig.profit_ratio.getD 0) }, st1)

/-- The straight-line tail of `_execute_buy` (after the rotation check):
record the new position and append a BUY record. BUY signals always carry
`price` and `stop_loss`; a missing key would raise `KeyError`. -/
def execute_buy_body (sig : Signal) (pt : PoolType) (st : StratState) :
    Except String (ExecResult × StratState) :=
  match sig.price, sig.stop_loss with
  | some price, some stop =>
    let st1 := st.setPos pt
      { etf_code := sig.etf_code, position := sig.position,
        avg_price := price, stop_loss := stop }
    let tx : Transaction :=
      { action := "BUY", etf_code := sig.etf_code, etf_name := sig.etf_name,
        price := price, position := sig.position, reason := sig.reason,
        profit_ratio := none, strategy_type := poolKey pt }
    let st2 := st1.addTx tx
    .ok ({ status := "success", action := "BUY",
           message := "买入" ++ sig.etf_code ++ "，仓位" ++ toString (sig.position * 100) ++ "%",
           etf_code := sig.etf_code, etf_name := sig.etf_name,
           price := some price, position := sig.position }, st2)
  | _, _ => .error "KeyError"

/-- `_execute_buy`: when a different instrument is held, the source first
tries to sell it with a synthetic rotation signal (which carries no `price`
key, so that inner `_execute_sell` raises `KeyError`); otherwise the buy is
recorded directly. -/
def execute_buy (sig : Signal) (pt : PoolType) (st : StratState) :
    Except String (ExecResult × StratState) :=
  let current_pos := st.pos pt
  if 0 < current_pos.position ∧ current_pos.etf_code ≠ sig.etf_code then
    let rotSig : Signal :=
      { action := "SELL", etf_code := current_pos.etf_code,
        position := 0, reason := "换仓操作" }
    (execute_sell rotSig pt st).bind
      fun pr =>
        if pr.1.status ≠ "success" then .ok pr
        else execute_buy_body sig pt pr.2
  else execute_buy_body sig pt st

/-- `execute_strategy(pool_type)`: generate a signal and route it. -/
def execute_strategy (env : StratEnv) (st : StratState) (pt : PoolType) :
    Except String (ExecResult × StratState) :=
  (generate_signals env st pt).bind fun sig =>
    if sig.action == "BUY" then execute_buy sig pt st
    else if sig.action == "SELL" then execute_sell sig pt st
    else
      .ok ({ status := "success", action := "HOLD", message := sig.reason,
             etf_code := sig.etf_code,
             current_position := (st.pos pt).position }, st)

/-- A whole run of evaluation cycles. A cycle on which the source raises an
uncaught exception mutates nothing (every raising statement in the cycle
precedes the first state mutation), so an erroring step keeps the state. -/
def run_strategy (steps : List (StratEnv × PoolType)) (st : StratState) : StratState :=
  match steps with
  | [] => st
  | (env, pt) :: rest =>
    run_strategy rest
      (match execute_strategy env st pt with
       | .ok pr => pr.2
       | .error _ => st)

/-! ## Delivery pipeline (`wechat_notifier.py`) -/

/-- The configured intraday windows, `TRADING_HOURS`. -/
structure TradingHours where
  morning_start : String
  morning_end : String
  afternoon_start : String
  afternoon_end : String
deriving DecidableEq, Repr

/-- `TRADING_HOURS` from `wechat_notifier.py`. -/
def TRADING_HOURS : TradingHours :=
  { morning_start := "09:30", morning_end := "11:30",
    afternoon_start := "13:00", afternoon_end := "15:00" }

/-- Lexicographic-by-code-point comparison of character lists, the order
Python's `<=` uses on strings. -/
def charListLe : List Char → List Char → Bool
  | [], _ => true
  | _ :: _, [] => false
  | a :: as, b :: bs =>
    if a < b then true else if b < a then false else charListLe as bs

/-- Python string `<=` (on the zero-padded `HH:MM` renderings used here). -/
def pyStrLe (a b : String) : Bool := charListLe a.data b.data

/-- `_is_trading_time`: `weekday` is Python's `datetime.weekday()`
(0 = Monday .. 6 = Sunday), `current_time` the zero-padded `strftime` `HH:MM`
rendering of the wall clock. -/
def is_trading_time (weekday : Nat) (current_time : String) : Bool :=
  if 5 ≤ weekday then false
  else
    let in_morning := pyStrLe TRADING_HOURS.morning_start current_time &&
      pyStrLe current_time TRADING_HOURS.morning_end
    let in_afternoon := pyStrLe TRADING_HOURS.afternoon_start current_time &&
      pyStrLe current_time TRADING_HOURS.afternoon_end
    in_morning || in_afternoon

/-- A queued outbound message (only its text matters to the dispatch loop). -/
structure Message where
  content : String
deriving DecidableEq, Repr

/-- Ghost record of one `_send_message` call: which message, at which clock
value, from which queue, and whether the webhook call succeeded. -/
structure SendEvent where
  msg : Message
  time : ℚ
  fromRetry : Bool
  ok : Bool
deriving DecidableEq, Repr

/-- The dispatch worker's environment: the trading-hours predicate as a
function of the clock, and the outcome of a webhook send attempt. -/
structure NotifierEnv where
  trading : ℚ → Bool
  sendOk : Message → ℚ → Bool

/-- The state of a `WechatNotifier` between iterations of `_process_queue`,
with the clock made explicit and two ghost fields (`sent`, `dropped`)
recording the observable history. Sends are modelled as instantaneous;
`time.sleep(1)` advances the clock by one second. -/
structure NotifierState where
  retry_queue : List Message
  message_queue : List Message
  last_send_time : ℚ
  now : ℚ
  sent : List SendEvent
  dropped : List Message

/-- `self.message_interval`: 60 seconds. -/
def message_interval : ℚ := 60

/-- The clock value at which the head of the primary queue is dispatched:
after sleeping the remaining difference when less than `message_interval`
has passed since `last_send_time`. -/
def dispatch_time (s : NotifierState) : ℚ :=
  if s.now - s.last_send_time < message_interval then
    s.last_send_time + message_interval
  else s.now

/-- The non-retry part of one `_process_queue` iteration: with the primary
queue non-empty, enforce the send interval (sleeping the remaining
difference), send, update `last_send_time`, and re-queue the message into
the retry queue exactly when the send failed inside trading hours (dropping
it when the send failed outside them); with both queues empty, sleep one
second. -/
def primary_step (env : NotifierEnv) (s : NotifierState) : NotifierState :=
  match s.message_queue with
  | [] => { s with now := s.now + 1 }
  | m :: rest =>
    let t := dispatch_time s
    let ok := env.sendOk m t
    { retry_queue := if !ok && env.trading t then s.retry_queue ++ [m] else s.retry_queue,
      message_queue := rest,
      last_send_time := t,
      now := t,
      sent := s.sent ++ [⟨m, t, false, ok⟩],
      dropped := if !ok && !(env.trading t) then s.dropped ++ [m] else s.dropped }

/-- One iteration of the `while self.running` body of `_process_queue`.
The retry branch fires when the retry queue is non-empty and the clock is
inside trading hours; it sends the oldest retry item immediately, discards
the result (a failed retry leaves the system for good), does not touch
`last_send_time`, and sleeps one second; otherwise the iteration falls
through to `primary_step`. -/
def process_queue_step (env : NotifierEnv) (s : NotifierState) : NotifierState :=
  match s.retry_queue, env.trading s.now with
  | m :: rest, true =>
    let ok := env.sendOk m s.now
    { s with retry_queue := rest,
             sent := s.sent ++ [⟨m, s.now, true, ok⟩],
             dropped := if ok then s.dropped else s.dropped ++ [m],
             now := s.now + 1 }
  | _, _ => primary_step env s

/-- Run `n` iterations of the dispatch loop. -/
def run_queue (env : NotifierEnv) : Nat → NotifierState → NotifierState
  | 0, s => s
  | n + 1, s => run_queue env n (process_queue_step env s)

/-- The notifier right after `start()`: both queues hold whatever was
enqueued so far, `last_send_time` is its `__init__` value 0, and the clock
reads `t0`. -/
def init_notifier (retry0 msgs : List Message) (t0 : ℚ) : NotifierState :=
  { retry_queue := retry0, message_queue := msgs, last_send_time := 0,
    now := t0, sent := [], dropped := [] }

/-- The primary-queue send attempts of a run, in order. -/
def primary_events (s : NotifierState) : List SendEvent :=
  s.sent.filter fun e => !e.fromRetry

/-- The clock values at which primary-queue send attempts happened. -/
def primary_times (s : NotifierState) : List ℚ :=
  (primary_events s).map SendEvent.time

/-- The primary-queue messages sent so far, in send order. -/
def primary_msgs (s : NotifierState) : List Message :=
  (primary_events s).map SendEvent.msg

/-- The rate-limit invariant of the dispatch worker: the clock is not behind
`last_send_time`, every past primary send happened no later than
`last_send_time`, and consecutive primary send attempts are at least
`message_interval` apart. -/
def RateInv (s : NotifierState) : Prop :=
  s.last_send_time ≤ s.now ∧
  (∀ t ∈ primary_times s, t ≤ s.last_send_time) ∧
  List.Chain' (fun a b => a + message_interval ≤ b) (primary_times s)

/-! ## Message formatting (`format_strategy_message`) -/

/-- The fields of a strategy-result dictionary that `format_strategy_message`
reads. `profit_ratio` is an `Option` because the source tests membership of
that key; every other key is read unconditionally. -/
structure StrategyResult where
  action : String
  message : String
  etf_code : String := ""
  etf_name : String := ""
  price : ℚ := 0
  position : ℚ := 0
  stop_loss : ℚ := 0
  profit_ratio : Option ℚ := none
  current_position : ℚ := 0
deriving DecidableEq, Repr

/-- Render a rational with `d` digits after the decimal point, as Python's
`format(x, '.df')` renders the corresponding value (rounding differences of
binary floating point at half-way points are irrelevant to every claim). -/
def formatFixed (q : ℚ) (d : Nat) : String :=
  let n : ℤ := round (q * (10 : ℚ) ^ d)
  let sign := if n < 0 then "-" else ""
  let a := n.natAbs
  if d = 0 then sign ++ toString (a / 10 ^ d)
  else
    let fp := toString (a % 10 ^ d)
    let fpPad := String.mk (List.replicate (d - fp.length) '0') ++ fp
    sign ++ toString (a / 10 ^ d) ++ "." ++ fpPad

/-- The first line of every formatted message: the system-time prefix. -/
def time_prefix (system_time : String) : String :=
  "CF系统时间：" ++ system_time ++ "\n"

/-- The part of the formatted message below the system-time line; it depends
only on the strategy result and the portfolio class. -/
def format_message_body (r : StrategyResult) (pt : PoolType) : String :=
  let pool_name := if pt = PoolType.stable then "稳健仓" else "激进仓"
  if r.action == "BUY" then
    "【" ++ pool_name ++ "策略执行结果】\n操作：买入\nETF代码：" ++ r.etf_code ++
      "\nETF名称：" ++ r.etf_name ++ "\n建议价格：" ++ formatFixed r.price 2 ++
      "元\n建议仓位：" ++ formatFixed (r.position * 100) 0 ++ "%\n止损价格：" ++
      formatFixed r.stop_loss 2 ++ "元\n操作理由：" ++ r.message
  else if r.action == "SELL" then
    let profit_str :=
      match r.profit_ratio with
      | some pr => "收益：" ++ formatFixed (pr * 100) 2 ++ "%"
      | none => "收益：N/A"
    "【" ++ pool_name ++ "策略执行结果】\n操作：卖出\nETF代码：" ++ r.etf_code ++
      "\n卖出价格：" ++ formatFixed r.price 2 ++ "元\n" ++ profit_str ++
      "\n操作理由：" ++ r.message
  else if r.action == "HOLD" then
    "【" ++ pool_name ++ "策略执行结果】\n操作：持有\n当前仓位：" ++
      formatFixed (r.current_position * 100) 0 ++ "%\n理由：" ++ r.message
  else
    "【" ++ pool_name ++ "策略执行结果】\n操作：" ++ r.action ++ "\n信息：" ++ r.message

/-- `format_strategy_message`: the source renders the current wall clock
(`datetime.now()`) into a prefix string and then branches on the action,
interpolating the prefix at the head of each branch's f-string. The clock
reading is an explicit argument here; `time_prefix` and
`format_message_body` above are the specification-side decomposition this
definition is compared against. -/
def format_strategy_message (r : StrategyResult) (pt : PoolType)
    (system_time : String) : String :=
  let pfx := "CF系统时间：" ++ system_time ++ "\n"
  let pool_name := if pt = PoolType.stable then "稳健仓" else "激进仓"
  if r.action == "BUY" then
    pfx ++ ("【" ++ pool_name ++ "策略执行结果】\n操作：买入\nETF代码：" ++ r.etf_code ++
      "\nETF名称：" ++ r.etf_name ++ "\n建议价格：" ++ formatFixed r.price 2 ++
      "元\n建议仓位：" ++ formatFixed (r.position * 100) 0 ++ "%\n止损价格：" ++
      formatFixed r.stop_loss 2 ++ "元\n操作理由：" ++ r.message)
  else if r.action == "SELL" then
    let profit_str :=
      match r.profit_ratio with
      | some pr => "收益：" ++ formatFixed (pr * 100) 2 ++ "%"
      | none => "收益：N/A"
    pfx ++ ("【" ++ pool_name ++ "策略执行结果】\n操作：卖出\nETF代码：" ++ r.etf_code ++
      "\n卖出价格：" ++ formatFixed r.price 2 ++ "元\n" ++ profit_str ++
      "\n操作理由：" ++ r.message)
  else if r.action == "HOLD" then
    pfx ++ ("【" ++ pool_name ++ "策略执行结果】\n操作：持有\n当前仓位：" ++
      formatFixed (r.current_position * 100) 0 ++ "%\n理由：" ++ r.message)
  else
    pfx ++ ("【" ++ pool_name ++ "策略执行结果】\n操作：" ++ r.action ++ "\n信息：" ++ r.message)

/-- A small parameter set (2-session window, one confirmation day) used to
instantiate the parameter-generic theorems on short concrete series. -/
def testParams : StrategyParams :=
  { ma_period := 2, confirm_days := 1, initial_position := 3/10, add_position := [],
    stop_loss_ratio := 15/100, tracking_stop_ratio := 5/100, max_position := 7/10 }

/-- A one-instrument candidate-pool environment used to instantiate the
state-machine theorems on a concrete evaluation cycle. -/
def witnessEnv : StratEnv :=
  { pool := fun pt =>
      match pt with
      | .stable => [{ etf_code := "510300", name := "沪深300ETF" }]
      | .aggressive => []
    close := fun _ => []
    ma20 := fun _ => []
    closeRecent := fun _ => [] }

/-! ## Helper observations -/

/-- The action of a possibly-raising signal computation. -/
def exceptAction (r : Except String Signal) : Option String :=
  r.toOption.map Signal.action

/-- The rationale of a possibly-raising signal computation. -/
def exceptReason (r : Except String Signal) : Option String :=
  r.toOption.map Signal.reason

/-! ## Claim C5 -/

/-- C5: a SELL execution whose signal targets an instrument other than the
recorded current position returns a structured result with status `error`
and performs no state mutation: the returned state is exactly the input
state (same positions, same ledger). -/
theorem sell_mismatch_error_no_mutation (sig : Signal) (pt : PoolType) (st : StratState)
    (h : (st.pos pt).etf_code ≠ sig.etf_code) :
    execute_sell sig pt st =
      .ok ({ status := "error", action := "SELL", message := "持仓不匹配",
             etf_code := sig.etf_code }, st) := by
  unfold execute_sell
  simp [h]

/-- C5 witness: a stable position in instrument `A` rejects a SELL signal
for instrument `B` without mutating anything. -/
theorem sell_mismatch_error_no_mutation_witness :
    (({ stablePos := { etf_code := "A", position := 3/10, avg_price := 10, stop_loss := 8 },
        aggressivePos := flatPosition, transaction_history := [] } : StratState).pos
          PoolType.stable).etf_code ≠ "B" ∧
    execute_sell { action := "SELL", reason := "r", etf_code := "B" } PoolType.stable
        { stablePos := { etf_code := "A", position := 3/10, avg_price := 10, stop_loss := 8 },
          aggressivePos := flatPosition, transaction_history := [] } =
      .ok ({ status := "error", action := "SELL", message := "持仓不匹配", etf_code := "B" },
        { stablePos := { etf_code := "A", position := 3/10, avg_price := 10, stop_loss := 8 },
          aggressivePos := flatPosition, transaction_history := [] }) :=
  ⟨by decide,
   sell_mismatch_error_no_mutation { action := "SELL", reason := "r", etf_code := "B" }
     PoolType.stable
     { stablePos := { etf_code := "A", position := 3/10, avg_price := 10, stop_loss := 8 },
       aggressivePos := flatPosition, transaction_history := [] } (by decide)⟩

/-! ## Claim C8 -/

/-- C8 counterexample: the formatter output depends on the wall clock read
inside the function, so two calls with identical strategy result and
portfolio class (but different clock readings) produce different strings —
the claim as stated is false. -/
theorem format_clock_dependence_cex :
    format_strategy_message { action := "HOLD", message := "x", current_position := 3/10 }
        PoolType.stable "2025-01-06 10:00:00" ≠
      format_strategy_message { action := "HOLD", message := "x", current_position := 3/10 }
        PoolType.stable "2025-01-07 10:00:00" := by
  decide

/-- C8 (amended): message formatting is a pure, deterministic function of
the strategy result, the portfolio class and the current system time, and
the system time only enters the first-line prefix: the output always
decomposes as `time_prefix` of the clock reading followed by a body that
depends only on the result and the portfolio class. -/
theorem format_decomposes (r : StrategyResult) (pt : PoolType) (t : String) :
    format_strategy_message r pt t = time_prefix t ++ format_message_body r pt := by
  unfold format_strategy_message time_prefix format_message_body
  by_cases h1 : (r.action == "BUY") = true <;>
    by_cases h2 : (r.action == "SELL") = true <;>
      by_cases h3 : (r.action == "HOLD") = true <;>
        simp [h1, h2, h3]

/-! ## Claim C7 -/

/-- C7 counterexample: a message taken from the retry queue whose send fails
while the clock is inside trading hours does not reappear in the retry
queue — the retry branch of `_process_queue` discards the send result — so
the claim's clause about sends of messages taken from the retry queue is
false on the code. -/
theorem retry_failure_not_requeued_cex :
    (process_queue_step { trading := fun _ => true, sendOk := fun _ _ => false }
        (init_notifier [{ content := "r" }] [] 1000)).retry_queue = [] ∧
    (process_queue_step { trading := fun _ => true, sendOk := fun _ _ => false }
        (init_notifier [{ content := "r" }] [] 1000)).dropped = [{ content := "r" }] := by
  constructor <;> rfl

/-- C7 (amended): failure routing applies to primary-queue sends only. A
primary-queue message whose send fails inside trading hours is moved to the
retry queue; one whose send fails outside trading hours is dropped; and a
message taken from the retry queue leaves that queue permanently whatever
the outcome — in particular a failed retry send inside trading hours is
dropped, not re-queued. -/
theorem send_failure_routing (env : NotifierEnv) (s : NotifierState) (m : Message)
    (rest : List Message) :
    (s.retry_queue = [] → s.message_queue = m :: rest →
      env.sendOk m (dispatch_time s) = false → env.trading (dispatch_time s) = true →
      (process_queue_step env s).retry_queue = s.retry_queue ++ [m] ∧
      (process_queue_step env s).message_queue = rest) ∧
    (s.retry_queue = [] → s.message_queue = m :: rest →
      env.sendOk m (dispatch_time s) = false → env.trading (dispatch_time s) = false →
      (process_queue_step env s).retry_queue = [] ∧
      (process_queue_step env s).dropped = s.dropped ++ [m]) ∧
    (s.retry_queue = m :: rest → env.trading s.now = true →
      (process_queue_step env s).retry_queue = rest ∧
      (env.sendOk m s.now = false →
        (process_queue_step env s).dropped = s.dropped ++ [m])) := by
  obtain ⟨rq, mq, ls, now, sent, dr⟩ := s
  refine ⟨?_, ?_, ?_⟩
  · intro hrq hmq hsend htrade
    subst hrq; subst hmq
    simp [process_queue_step, primary_step, hsend, htrade]
  · intro hrq hmq hsend htrade
    subst hrq; subst hmq
    simp [process_queue_step, primary_step, hsend, htrade]
  · intro hrq htrade
    subst hrq
    simp [process_queue_step, primary_step, htrade]

/-- C7 witness: a concrete primary-queue message failing inside trading
hours is moved to the retry queue and leaves the primary queue. -/
theorem send_failure_routing_witness :
    (init_notifier [] [{ content := "p" }] 1000).retry_queue = [] ∧
    (init_notifier [] [{ content := "p" }] 1000).message_queue = [{ content := "p" }] ∧
    (process_queue_step { trading := fun _ => true, sendOk := fun _ _ => false }
        (init_notifier [] [{ content := "p" }] 1000)).retry_queue =
      (init_notifier [] [{ content := "p" }] 1000).retry_queue ++ [{ content := "p" }] ∧
    (process_queue_step { trading := fun _ => true, sendOk := fun _ _ => false }
        (init_notifier [] [{ content := "p" }] 1000)).message_queue = [] := by
  refine ⟨rfl, rfl, ?_⟩
  have h := (send_failure_routing { trading := fun _ => true, sendOk := fun _ _ => false }
    (init_notifier [] [{ content := "p" }] 1000) { content := "p" } []).1 rfl rfl rfl rfl
  exact h

/-! ## Claim C10 -/

/-- C10: the trading-hours predicate is false at every clock time on a
Saturday or Sunday (Python weekday 5 or 6), and consequently a primary-queue
send failure occurring while the trading predicate reads a weekend clock drops
the message instead of moving it to the retry queue, even when the `HH:MM`
reading lies inside the configured intraday windows. -/
theorem weekend_never_trading_and_drop :
    (∀ (wd : Nat) (t : String), 5 ≤ wd → is_trading_time wd t = false) ∧
    (∀ (wdOf : ℚ → Nat) (hhOf : ℚ → String) (sendOk : Message → ℚ → Bool)
        (s : NotifierState) (m : Message) (rest : List Message),
      s.retry_queue = [] → s.message_queue = m :: rest →
      5 ≤ wdOf (dispatch_time s) → sendOk m (dispatch_time s) = false →
      (process_queue_step
          { trading := fun τ => is_trading_time (wdOf τ) (hhOf τ), sendOk := sendOk }
          s).retry_queue = [] ∧
      (process_queue_step
          { trading := fun τ => is_trading_time (wdOf τ) (hhOf τ), sendOk := sendOk }
          s).dropped = s.dropped ++ [m]) := by
  have hwk : ∀ (wd : Nat) (t : String), 5 ≤ wd → is_trading_time wd t = false := by
    intro wd t h
    simp [is_trading_time, h]
  refine ⟨hwk, ?_⟩
  intro wdOf hhOf sendOk s m rest hrq hmq hwd hsend
  obtain ⟨rq, mq, ls, now, sent, dr⟩ := s
  simp only at hrq hmq
  subst hrq; subst hmq
  have ht := hwk (wdOf (dispatch_time ⟨[], m :: rest, ls, now, sent, dr⟩))
    (hhOf (dispatch_time ⟨[], m :: rest, ls, now, sent, dr⟩)) hwd
  simp [process_queue_step, primary_step, hsend, ht]

/-- C10 witness: on weekday 5 (Saturday) at 10:00 — inside the morning
window — the predicate is false, and a concrete failing weekend send is
dropped rather than re-queued. -/
theorem weekend_never_trading_and_drop_witness :
    (5 ≤ 5 ∧ is_trading_time 5 "10:00" = false ∧
      pyStrLe TRADING_HOURS.morning_start "10:00" = true ∧
      pyStrLe "10:00" TRADING_HOURS.morning_end = true) ∧
    ((process_queue_step
        { trading := fun _ => is_trading_time 5 "10:00", sendOk := fun _ _ => false }
        (init_notifier [] [{ content := "w" }] 1000)).retry_queue = [] ∧
      (process_queue_step
        { trading := fun _ => is_trading_time 5 "10:00", sendOk := fun _ _ => false }
        (init_notifier [] [{ content := "w" }] 1000)).dropped = [] ++ [{ content := "w" }]) :=
  ⟨⟨le_refl 5, weekend_never_trading_and_drop.1 5 "10:00" (le_refl 5), by decide, by decide⟩,
   weekend_never_trading_and_drop.2 (fun _ => 5) (fun _ => "10:00") (fun _ _ => false)
     (init_notifier [] [{ content := "w" }] 1000) { content := "w" } [] rfl rfl (le_refl 5) rfl⟩

/-! ## Claim C1 -/

/-- C1: on a non-empty quote series the sell-check conditions are decided in
the fixed priority order — the fixed stop-loss verdict is returned whenever
its condition holds (whatever the moving-average or trailing state), the
moving-average-breakdown verdict whenever its condition holds and the fixed
stop does not, and the trailing-stop verdict only when neither earlier
condition holds — and a SELL produced by the sell check is what
`generate_signals` returns for a held position, before any BUY check is
reached. This is the behaviour of the sell-check logic with the source's
out-of-scope `pool_type` read repaired (see `check_sell_signal`); the
unrepaired source raises `NameError` instead (recorded as a code bug). -/
theorem sell_check_priority (closes : List ℚ) (cur : Position) (hist : List Transaction)
    (params : StrategyParams) (code : String) (cp : ℚ)
    (hlast : closes.getLast? = some cp) :
    (cp ≤ cur.stop_loss →
      exceptAction (check_sell_signal closes cur hist params code) = some "SELL" ∧
      exceptReason (check_sell_signal closes cur hist params code) =
        some (fixed_stop_reason params)) ∧
    (¬ cp ≤ cur.stop_loss → ma_breakdown closes params cp = true →
      exceptAction (check_sell_signal closes cur hist params code) = some "SELL" ∧
      exceptReason (check_sell_signal closes cur hist params code) =
        some (ma_break_reason params)) ∧
    (¬ cp ≤ cur.stop_loss → ma_breakdown closes params cp = false →
      ∀ mx, (ledger_buy_prices hist code).max? = some mx →
        mx * (1 - params.tracking_stop_ratio) > cp →
        exceptAction (check_sell_signal closes cur hist params code) = some "SELL" ∧
        exceptReason (check_sell_signal closes cur hist params code) =
          some (tracking_stop_reason params)) ∧
    (∀ (env : StratEnv) (st : StratState) (pt : PoolType) (sig : Signal),
      0 < (st.pos pt).position → (env.pool pt).isEmpty = false →
      check_sell_signal (env.close (st.pos pt).etf_code) (st.pos pt)
        st.transaction_history (STRATEGY_PARAMS pt) (st.pos pt).etf_code = .ok sig →
      sig.action = "SELL" →
      generate_signals env st pt = .ok sig) := by
  refine ⟨?_, ?_, ?_, ?_⟩
  · intro hfix
    simp [check_sell_signal, hlast, hfix, exceptAction, exceptReason, Except.toOption]
  · intro hfix hma
    simp [check_sell_signal, hlast, hfix, hma, exceptAction, exceptReason, Except.toOption]
  · intro hfix hma mx hmx htr
    simp [check_sell_signal, hlast, hfix, hma, hmx, htr, exceptAction, exceptReason,
      Except.toOption]
  · intro env st pt sig hpos hpool hsell hact
    simp [generate_signals, hpool, hpos, hsell, hact, Except.map, Except.bind]

/-- C1 witness: with stop-loss price 8.5 recorded and a falling series
ending at 4 — data on which, for a 2-session window with one confirmation
day, the fixed stop-loss and the moving-average breakdown hold
simultaneously — the fixed stop-loss rationale is reported. -/
theorem sell_check_priority_witness :
    (([10, 4] : List ℚ).getLast? = some 4 ∧
      (4 : ℚ) ≤ 85/10 ∧
      ma_breakdown [10, 4]
        testParams
        4 = true) ∧
    (exceptAction (check_sell_signal [10, 4]
        { etf_code := "A", position := 3/10, avg_price := 10, stop_loss := 85/10 } []
        testParams
        "A") = some "SELL" ∧
      exceptReason (check_sell_signal [10, 4]
        { etf_code := "A", position := 3/10, avg_price := 10, stop_loss := 85/10 } []
        testParams
        "A") =
          some (fixed_stop_reason
            testParams)) :=
  ⟨⟨rfl, by norm_num,
    by norm_num [ma_breakdown, rollingMean, takeLast, optLt, List.range_succ, testParams]⟩,
   (sell_check_priority [10, 4]
      { etf_code := "A", position := 3/10, avg_price := 10, stop_loss := 85/10 } []
      testParams
      "A" 4 rfl).1 (by norm_num)⟩

/-! ## Claim C3 -/

/-- C3: once the fixed stop-loss and the moving-average breakdown have both
declined, the trailing-stop comparison uses `max?` of the BUY prices
recorded in the entire ledger for the held instrument, and when the ledger
holds no BUY record for it the sell check does not return a non-SELL
result — it raises (`ValueError` from `max()` on an empty sequence), so the
claim's no-prior-BUY clause fails on the code. -/
theorem trailing_stop_ledger_max (closes : List ℚ) (cur : Position) (hist : List Transaction)
    (params : StrategyParams) (code : String) (cp : ℚ)
    (hlast : closes.getLast? = some cp) (hfix : ¬ cp ≤ cur.stop_loss)
    (hma : ma_breakdown closes params cp = false) :
    ((ledger_buy_prices hist code).max? = none →
      check_sell_signal closes cur hist params code =
        .error "ValueError: max() arg is an empty sequence") ∧
    (∀ mx, (ledger_buy_prices hist code).max? = some mx →
      mx ∈ ledger_buy_prices hist code ∧
      (∀ p ∈ ledger_buy_prices hist code, p ≤ mx) ∧
      (mx * (1 - params.tracking_stop_ratio) > cp →
        exceptAction (check_sell_signal closes cur hist params code) = some "SELL" ∧
        exceptReason (check_sell_signal closes cur hist params code) =
          some (tracking_stop_reason params)) ∧
      (¬ mx * (1 - params.tracking_stop_ratio) > cp →
        exceptAction (check_sell_signal closes cur hist params code) = some "HOLD")) := by
  constructor
  · intro hnone
    simp [check_sell_signal, hlast, hfix, hma, hnone]
  · intro mx hmx
    refine ⟨List.max?_mem max_choice hmx, ?_, ?_, ?_⟩
    · exact (List.max?_le_iff (fun _ _ _ => max_le_iff) hmx).1 (le_refl mx)
    · intro htr
      simp [check_sell_signal, hlast, hfix, hma, hmx, htr, exceptAction, exceptReason,
        Except.toOption]
    · intro htr
      simp [check_sell_signal, hlast, hfix, hma, hmx, htr, exceptAction, exceptReason,
        Except.toOption]

/-- C3 witness: held instrument `A`, latest close 11, two BUY records at
prices 12 (older) and 10 (most recent). The trailing threshold uses the
ledger maximum 12, so `12 × 0.95 = 11.4 > 11` fires the trailing stop — the
threshold from the most recent BUY alone (`10 × 0.95 = 9.5 < 11`) would
not — and on the empty ledger the same configuration raises instead of
returning a non-SELL result. -/
theorem trailing_stop_ledger_max_witness :
    (([11] : List ℚ).getLast? = some 11 ∧
      ¬ (11 : ℚ) ≤ 1 ∧
      ma_breakdown [11] (STRATEGY_PARAMS .stable) 11 = false ∧
      (ledger_buy_prices
        [{ action := "BUY", etf_code := "A", etf_name := "", price := 12, position := 3/10,
           reason := "", profit_ratio := none, strategy_type := "stable" },
         { action := "BUY", etf_code := "A", etf_name := "", price := 10, position := 3/10,
           reason := "", profit_ratio := none, strategy_type := "stable" }] "A").max? =
        some 12 ∧
      (12 : ℚ) * (1 - (STRATEGY_PARAMS .stable).tracking_stop_ratio) > 11 ∧
      ¬ (10 : ℚ) * (1 - (STRATEGY_PARAMS .stable).tracking_stop_ratio) > 11) ∧
    (exceptAction (check_sell_signal [11]
        { etf_code := "A", position := 3/10, avg_price := 10, stop_loss := 1 }
        [{ action := "BUY", etf_code := "A", etf_name := "", price := 12, position := 3/10,
           reason := "", profit_ratio := none, strategy_type := "stable" },
         { action := "BUY", etf_code := "A", etf_name := "", price := 10, position := 3/10,
           reason := "", profit_ratio := none, strategy_type := "stable" }]
        (STRATEGY_PARAMS .stable) "A") = some "SELL") ∧
    (check_sell_signal [11]
        { etf_code := "A", position := 3/10, avg_price := 10, stop_loss := 1 } []
        (STRATEGY_PARAMS .stable) "A" =
      .error "ValueError: max() arg is an empty sequence") :=
  ⟨⟨rfl, by norm_num,
    by norm_num [ma_breakdown, rollingMean, takeLast, optLt, List.range_succ, STRATEGY_PARAMS],
    by decide, by norm_num [STRATEGY_PARAMS], by norm_num [STRATEGY_PARAMS]⟩,
   (((trailing_stop_ledger_max [11]
      { etf_code := "A", position := 3/10, avg_price := 10, stop_loss := 1 }
      [{ action := "BUY", etf_code := "A", etf_name := "", price := 12, position := 3/10,
         reason := "", profit_ratio := none, strategy_type := "stable" },
       { action := "BUY", etf_code := "A", etf_name := "", price := 10, position := 3/10,
         reason := "", profit_ratio := none, strategy_type := "stable" }]
      (STRATEGY_PARAMS .stable) "A" 11 rfl (by norm_num)
      (by norm_num [ma_breakdown, rollingMean, takeLast, optLt, List.range_succ, STRATEGY_PARAMS])).2
      12 (by decide)).2.2.1 (by norm_num [STRATEGY_PARAMS])).1,
   (trailing_stop_ledger_max [11]
      { etf_code := "A", position := 3/10, avg_price := 10, stop_loss := 1 } []
      (STRATEGY_PARAMS .stable) "A" 11 rfl (by norm_num)
      (by norm_num [ma_breakdown, rollingMean, takeLast, optLt, List.range_succ, STRATEGY_PARAMS])).1
      rfl⟩

/-! ## Claim C2: bridge lemmas between the list combinators of the
embedding and per-session indexing -/

theorem length_rollingMean (w : Nat) (l : List ℚ) : (rollingMean w l).length = l.length := by
  simp [rollingMean]

theorem takeLast_length (n : Nat) (l : List α) : (takeLast n l).length = min n l.length := by
  simp [takeLast]
  omega

theorem takeLast_getD (n i : Nat) (l : List α) (d : α) :
    (takeLast n l).getD i d = l.getD (l.length - n + i) d := by
  simp [takeLast, List.getD_eq_getElem?_getD, List.getElem?_drop]

theorem optGt_eq_true_iff (a : ℚ) (m : Option ℚ) :
    optGt a m = true ↔ ∃ v, m = some v ∧ v < a := by
  cases m <;> simp [optGt]

theorem optGtOO_eq_true_iff (a b : Option ℚ) :
    optGtOO a b = true ↔ ∃ x y, a = some x ∧ b = some y ∧ y < x := by
  cases a <;> cases b <;> simp [optGtOO]

theorem zip_all_eq_true_iff (f : ℚ → Option ℚ → Bool) :
    ∀ (xs : List ℚ) (ys : List (Option ℚ)),
      ((xs.zip ys).all fun p => f p.1 p.2) = true ↔
        ∀ i, i < min xs.length ys.length → f (xs.getD i 0) (ys.getD i none) = true := by
  intro xs
  induction xs with
  | nil => intro ys; simp
  | cons x xs ih =>
    intro ys
    cases ys with
    | nil => simp
    | cons y ys =>
      simp only [List.zip_cons_cons, List.all_cons, Bool.and_eq_true, List.length_cons,
        Nat.succ_min_succ]
      constructor
      · rintro ⟨h0, hrest⟩ i hi
        cases i with
        | zero => simpa using h0
        | succ j =>
          have hj : j < min xs.length ys.length := by omega
          simpa [List.getD_cons_succ] using (ih ys).1 hrest j hj
      · intro h
        refine ⟨?_, (ih ys).2 fun j hj => ?_⟩
        · simpa using h 0 (by omega)
        · simpa [List.getD_cons_succ] using h (j + 1) (by omega)

theorem getLast?_join_eq_getD (ml : List (Option ℚ)) (h : ml ≠ []) :
    ml.getLast?.join = ml.getD (ml.length - 1) none := by
  have hlt : ml.length - 1 < ml.length := by
    cases ml with
    | nil => exact absurd rfl h
    | cons a l => simp
  rw [List.getLast?_eq_getElem?, List.getD_eq_getElem?_getD, List.getElem?_eq_getElem hlt]
  simp

theorem dropLast_getLast?_join_eq_getD (ml : List (Option ℚ)) (h : 2 ≤ ml.length) :
    ml.dropLast.getLast?.join = ml.getD (ml.length - 2) none := by
  have hlen : ml.dropLast.length = ml.length - 1 := List.length_dropLast ml
  have hne : ml.dropLast ≠ [] := by
    intro hcon
    rw [hcon] at hlen
    simp at hlen
    omega
  rw [getLast?_join_eq_getD _ hne, hlen, List.dropLast_eq_take,
    List.getD_eq_getElem?_getD, List.getD_eq_getElem?_getD, List.getElem?_take]
  have h2 : ml.length - 1 - 1 = ml.length - 2 := by omega
  rw [h2, if_pos (by omega)]

theorem price_break_iff (closes : List ℚ) (params : StrategyParams) :
    price_break_cond closes params = true ↔
      ∀ i, closes.length - params.confirm_days ≤ i → i < closes.length →
        ∃ mv, (rollingMean params.ma_period closes).getD i none = some mv ∧
          mv < closes.getD i 0 := by
  unfold price_break_cond
  rw [zip_all_eq_true_iff]
  constructor
  · intro H j hj1 hj2
    have hi : j - (closes.length - params.confirm_days) <
        min (takeLast params.confirm_days closes).length
          (takeLast params.confirm_days (rollingMean params.ma_period closes)).length := by
      rw [takeLast_length, takeLast_length, length_rollingMean, Nat.lt_min]
      constructor <;> omega
    have hx := H _ hi
    rw [takeLast_getD, takeLast_getD, length_rollingMean] at hx
    have harith : closes.length - params.confirm_days +
        (j - (closes.length - params.confirm_days)) = j := by omega
    rw [harith] at hx
    exact (optGt_eq_true_iff _ _).1 hx
  · intro H i hi
    rw [takeLast_length, takeLast_length, length_rollingMean, Nat.lt_min] at hi
    rw [takeLast_getD, takeLast_getD, length_rollingMean]
    apply (optGt_eq_true_iff _ _).2
    exact H _ (by omega) (by omega)

theorem ma_trend_iff (closes : List ℚ) (params : StrategyParams)
    (hlen : params.ma_period ≤ closes.length) (hma2 : 2 ≤ params.ma_period) :
    ma_trend_cond closes params = true ↔
      ∃ a b, (rollingMean params.ma_period closes).getD (closes.length - 1) none = some a ∧
        (rollingMean params.ma_period closes).getD (closes.length - 2) none = some b ∧
        b < a := by
  unfold ma_trend_cond
  have hlen2 : 2 ≤ (rollingMean params.ma_period closes).length := by
    rw [length_rollingMean]
    omega
  have hne : rollingMean params.ma_period closes ≠ [] := by
    intro hcon
    rw [hcon] at hlen2
    simp at hlen2
  rw [getLast?_join_eq_getD _ hne, dropLast_getLast?_join_eq_getD _ hlen2, length_rollingMean]
  exact optGtOO_eq_true_iff _ _

theorem buy_action_iff_cond (closes : List ℚ) (code : String) (params : StrategyParams)
    (pools : List EtfInfo) (h : ¬ closes.length < params.ma_period) :
    (check_buy_signal closes code params pools).action = "BUY" ↔
      (price_break_cond closes params && ma_trend_cond closes params) = true := by
  unfold check_buy_signal
  rw [if_neg h]
  by_cases hc : (price_break_cond closes params && ma_trend_cond closes params) = true
  · rw [if_pos hc]
    exact iff_of_true rfl hc
  · rw [if_neg hc]
    exact iff_of_false
      (fun hcon => absurd (show ("HOLD" : String) = "BUY" from hcon) (by decide)) hc

theorem check_buy_payload (closes : List ℚ) (code : String) (params : StrategyParams)
    (pools : List EtfInfo) (h : (check_buy_signal closes code params pools).action = "BUY") :
    (check_buy_signal closes code params pools).position = params.initial_position ∧
    (check_buy_signal closes code params pools).price = some (closes.getLastD 0) ∧
    (check_buy_signal closes code params pools).stop_loss =
      some (closes.getLastD 0 * (1 - params.stop_loss_ratio)) ∧
    (check_buy_signal closes code params pools).etf_code = code := by
  unfold check_buy_signal at h ⊢
  split_ifs at h ⊢ with h1 h2
  · exact absurd (show ("HOLD" : String) = "BUY" from h) (by decide)
  · exact ⟨rfl, rfl, rfl, rfl⟩
  · exact absurd (show ("HOLD" : String) = "BUY" from h) (by decide)

/-- C2: for a quote series of at least `ma_period` sessions (window at least
2, as both configured parameter sets have), the buy check answers BUY
exactly when the close was strictly above the defined `ma_period`-session
rolling mean on each of the `confirm_days` most recent sessions and the
latest rolling-mean value strictly exceeds the previous one; and a BUY
carries suggested position `initial_position` and stop-loss price
`latest close × (1 − stop_loss_ratio)`. -/
theorem buy_check_iff (closes : List ℚ) (code : String) (params : StrategyParams)
    (pools : List EtfInfo) (hlen : params.ma_period ≤ closes.length)
    (hma2 : 2 ≤ params.ma_period) :
    ((check_buy_signal closes code params pools).action = "BUY" ↔
      ((∀ i, closes.length - params.confirm_days ≤ i → i < closes.length →
          ∃ mv, (rollingMean params.ma_period closes).getD i none = some mv ∧
            mv < closes.getD i 0) ∧
        (∃ a b,
          (rollingMean params.ma_period closes).getD (closes.length - 1) none = some a ∧
          (rollingMean params.ma_period closes).getD (closes.length - 2) none = some b ∧
          b < a))) ∧
    ((check_buy_signal closes code params pools).action = "BUY" →
      (check_buy_signal closes code params pools).position = params.initial_position ∧
      (check_buy_signal closes code params pools).stop_loss =
        some (closes.getLastD 0 * (1 - params.stop_loss_ratio))) := by
  constructor
  · rw [buy_action_iff_cond closes code params pools (by omega), Bool.and_eq_true,
      price_break_iff, ma_trend_iff closes params hlen hma2]
  · intro h
    obtain ⟨h1, h2, h3, h4⟩ := check_buy_payload closes code params pools h
    exact ⟨h1, h3⟩

/-- C2 witness: the characterisation instantiated at a concrete 3-session
series with a 2-session window and one confirmation day. -/
theorem buy_check_iff_witness :
    (testParams.ma_period ≤ ([1, 2, 3] : List ℚ).length ∧ 2 ≤ testParams.ma_period) ∧
    (((check_buy_signal [1, 2, 3] "A"
        testParams
        []).action = "BUY" ↔
      ((∀ i, ([1, 2, 3] : List ℚ).length - 1 ≤ i → i < ([1, 2, 3] : List ℚ).length →
          ∃ mv, (rollingMean 2 [1, 2, 3]).getD i none = some mv ∧
            mv < ([1, 2, 3] : List ℚ).getD i 0) ∧
        (∃ a b,
          (rollingMean 2 [1, 2, 3]).getD (([1, 2, 3] : List ℚ).length - 1) none = some a ∧
          (rollingMean 2 [1, 2, 3]).getD (([1, 2, 3] : List ℚ).length - 2) none = some b ∧
          b < a))) ∧
    ((check_buy_signal [1, 2, 3] "A"
        testParams
        []).action = "BUY" →
      (check_buy_signal [1, 2, 3] "A"
        testParams
        []).position = 3/10 ∧
      (check_buy_signal [1, 2, 3] "A"
        testParams
        []).stop_loss = some (([1, 2, 3] : List ℚ).getLastD 0 * (1 - 15/100)))) :=
  ⟨⟨by decide, by decide⟩,
   buy_check_iff [1, 2, 3] "A"
     testParams
     [] (by decide) (by decide)⟩

/-! ## Claim C6 -/

theorem le_dispatch_time (s : NotifierState) :
    s.last_send_time + message_interval ≤ dispatch_time s := by
  unfold dispatch_time
  split
  · exact le_refl _
  · linarith [not_lt.1 (by assumption : ¬ s.now - s.last_send_time < message_interval)]

theorem rate_inv_primary_step (env : NotifierEnv) (s : NotifierState) (h : RateInv s) :
    RateInv (primary_step env s) := by
  obtain ⟨h1, h2, h3⟩ := h
  unfold RateInv primary_step
  split
  · refine ⟨?_, ?_, ?_⟩
    · dsimp only
      linarith
    · intro t ht
      apply h2
      simpa [primary_times, primary_events] using ht
    · simpa [primary_times, primary_events] using h3
  · rename_i m rest hmq
    have hd := le_dispatch_time s
    dsimp only
    have htimes : primary_times
        { retry_queue := if !env.sendOk m (dispatch_time s) && env.trading (dispatch_time s)
            then s.retry_queue ++ [m] else s.retry_queue,
          message_queue := rest,
          last_send_time := dispatch_time s,
          now := dispatch_time s,
          sent := s.sent ++ [⟨m, dispatch_time s, false, env.sendOk m (dispatch_time s)⟩],
          dropped := if !env.sendOk m (dispatch_time s) && !env.trading (dispatch_time s)
            then s.dropped ++ [m] else s.dropped } =
        primary_times s ++ [dispatch_time s] := by
      simp [primary_times, primary_events, List.filter_append]
    refine ⟨le_refl _, ?_, ?_⟩
    · rw [htimes]
      intro t ht
      rcases List.mem_append.1 ht with hold | hnew
      · have := h2 t hold
        have hmi : (0 : ℚ) ≤ message_interval := by norm_num [message_interval]
        linarith
      · simp only [List.mem_singleton] at hnew
        simp [hnew]
    · rw [htimes]
      refine List.Chain'.append h3 (List.chain'_singleton _) ?_
      intro x hx y hy
      simp only [List.head?_cons, Option.mem_def, Option.some.injEq] at hy
      subst hy
      have hx2 := h2 x (List.mem_of_mem_getLast? hx)
      linarith

theorem rate_inv_step (env : NotifierEnv) (s : NotifierState) (h : RateInv s) :
    RateInv (process_queue_step env s) := by
  obtain ⟨h1, h2, h3⟩ := h
  unfold RateInv process_queue_step
  split
  · dsimp only
    refine ⟨by linarith, ?_, ?_⟩
    · intro t ht
      apply h2
      simpa [primary_times, primary_events, List.filter_append] using ht
    · simpa [primary_times, primary_events, List.filter_append] using h3
  · exact rate_inv_primary_step env s ⟨h1, h2, h3⟩

theorem fifo_step (env : NotifierEnv) (s : NotifierState) :
    primary_msgs (process_queue_step env s) ++ (process_queue_step env s).message_queue =
      primary_msgs s ++ s.message_queue := by
  unfold process_queue_step
  split
  · simp [primary_msgs, primary_events, List.filter_append]
  · unfold primary_step
    split
    · simp [primary_msgs, primary_events]
    · rename_i m rest hmq
      simp [primary_msgs, primary_events, List.filter_append, hmq]

theorem rate_inv_run (env : NotifierEnv) (n : Nat) :
    ∀ s : NotifierState, RateInv s → RateInv (run_queue env n s) := by
  induction n with
  | zero => intro s h; exact h
  | succ k ih => intro s h; exact ih _ (rate_inv_step env s h)

theorem fifo_run (env : NotifierEnv) (n : Nat) :
    ∀ s : NotifierState,
      primary_msgs (run_queue env n s) ++ (run_queue env n s).message_queue =
        primary_msgs s ++ s.message_queue := by
  induction n with
  | zero => intro s; rfl
  | succ k ih =>
    intro s
    rw [show run_queue env (k + 1) s = run_queue env k (process_queue_step env s) from rfl,
      ih (process_queue_step env s), fifo_step env s]

/-- C6: starting the worker on a primary queue holding `msgs` (retry queue
empty, `last_send_time` at its initial value 0, clock at `t0 ≥ 0`), after
any number of loop iterations the primary-queue send attempts are at least
`message_interval` (60 s) apart — each is dispatched only once that much
time has passed since `last_send_time`, the time of the previous primary
attempt whether it succeeded or failed, the worker sleeping the remaining
difference otherwise — and the primary messages sent so far are a prefix of
`msgs`: the one enqueued first is sent first. -/
theorem primary_dispatch_interval_and_fifo (env : NotifierEnv) (msgs : List Message)
    (t0 : ℚ) (n : Nat) (h0 : 0 ≤ t0) :
    List.Chain' (fun a b => a + message_interval ≤ b)
      (primary_times (run_queue env n (init_notifier [] msgs t0))) ∧
    (primary_msgs (run_queue env n (init_notifier [] msgs t0))).IsPrefix msgs := by
  have hinv : RateInv (init_notifier [] msgs t0) := by
    refine ⟨by simpa [init_notifier] using h0, ?_, ?_⟩
    · intro t ht
      simp [primary_times, primary_events, init_notifier] at ht
    · simp [primary_times, primary_events, init_notifier]
  constructor
  · exact (rate_inv_run env n _ hinv).2.2
  · have hf := fifo_run env n (init_notifier [] msgs t0)
    have hbase : primary_msgs (init_notifier [] msgs t0) ++
        (init_notifier [] msgs t0).message_queue = msgs := by
      simp [primary_msgs, primary_events, init_notifier]
    rw [hbase] at hf
    exact ⟨(run_queue env n (init_notifier [] msgs t0)).message_queue, hf⟩

/-- C6 witness: the rate-limit and FIFO facts instantiated on a concrete
two-message queue, an always-succeeding channel and five loop iterations. -/
theorem primary_dispatch_interval_and_fifo_witness :
    (0 : ℚ) ≤ 100 ∧
    (List.Chain' (fun a b => a + message_interval ≤ b)
      (primary_times (run_queue { trading := fun _ => true, sendOk := fun _ _ => true } 5
        (init_notifier [] [{ content := "a" }, { content := "b" }] 100))) ∧
    (primary_msgs (run_queue { trading := fun _ => true, sendOk := fun _ _ => true } 5
        (init_notifier [] [{ content := "a" }, { content := "b" }] 100))).IsPrefix
      [{ content := "a" }, { content := "b" }]) :=
  ⟨by norm_num,
   primary_dispatch_interval_and_fifo { trading := fun _ => true, sendOk := fun _ _ => true }
     [{ content := "a" }, { content := "b" }] 100 5 (by norm_num)⟩

/-! ## Claims C4 and C9: the per-portfolio state machine -/

theorem select_best_etf_mem (env : StratEnv) (pool : List EtfInfo) (e : EtfInfo)
    (h : select_best_etf env pool = some e) : e ∈ pool := by
  unfold select_best_etf at h
  rw [Option.map_eq_some'] at h
  obtain ⟨c, hc, hce⟩ := h
  have hmem := List.mem_mergeSort.1 (List.mem_of_mem_head? hc)
  obtain ⟨x, hx, hfx⟩ := List.mem_filterMap.1 hmem
  dsimp only at hfx
  by_cases hq : (env.close x.etf_code).isEmpty
  · rw [if_pos hq] at hfx
    exact absurd hfx (by simp)
  · rw [if_neg hq] at hfx
    have hxc : x = c.1 := by
      have := Option.some.inj hfx
      rw [← this]
    rw [← hce, ← hxc]
    exact hx

theorem check_sell_signal_ok (closes : List ℚ) (cur : Position) (hist : List Transaction)
    (params : StrategyParams) (code : String) (s : Signal)
    (h : check_sell_signal closes cur hist params code = .ok s) :
    s.etf_code = code ∧ (s.action = "SELL" → ∃ p, s.price = some p) := by
  unfold check_sell_signal at h
  split at h
  · simp only [Except.ok.injEq] at h
    subst h
    exact ⟨rfl, fun hs => absurd (show ("HOLD" : String) = "SELL" from hs) (by decide)⟩
  · rename_i current_price hl
    by_cases hfix : current_price ≤ cur.stop_loss
    · rw [if_pos hfix] at h
      simp only [Except.ok.injEq] at h
      subst h
      exact ⟨rfl, fun _ => ⟨current_price, rfl⟩⟩
    · rw [if_neg hfix] at h
      by_cases hma : ma_breakdown closes params current_price = true
      · rw [if_pos hma] at h
        simp only [Except.ok.injEq] at h
        subst h
        exact ⟨rfl, fun _ => ⟨current_price, rfl⟩⟩
      · rw [if_neg hma] at h
        split at h
        · exact absurd h (by simp)
        · rename_i mx hmx
          by_cases htr : mx * (1 - params.tracking_stop_ratio) > current_price
          · rw [if_pos htr] at h
            simp only [Except.ok.injEq] at h
            subst h
            exact ⟨rfl, fun _ => ⟨current_price, rfl⟩⟩
          · rw [if_neg htr] at h
            simp only [Except.ok.injEq] at h
            subst h
            exact ⟨rfl, fun hs => absurd (show ("HOLD" : String) = "SELL" from hs) (by decide)⟩

theorem generate_buy_branch_ok (env : StratEnv) (pt : PoolType) (sig : Signal)
    (h : generate_buy_branch env pt = .ok sig) :
    sig.action = "HOLD" ∨
      (sig.action = "BUY" ∧ sig.position = (STRATEGY_PARAMS pt).initial_position ∧
        (∃ p, sig.price = some p) ∧ (∃ q, sig.stop_loss = some q) ∧
        ∃ e ∈ env.pool pt, sig.etf_code = e.etf_code) := by
  unfold generate_buy_branch at h
  split at h
  · simp only [Except.ok.injEq] at h
    subst h
    left
    rfl
  · rename_i best hbest
    dsimp only at h
    by_cases hact : ((check_buy_signal (env.closeRecent best.etf_code) best.etf_code
        (STRATEGY_PARAMS pt) (env.pool .stable ++ env.pool .aggressive)).action == "BUY") = true
    · rw [if_pos hact] at h
      simp only [Except.ok.injEq] at h
      subst h
      right
      have hB := eq_of_beq hact
      obtain ⟨h1, h2, h3, h4⟩ := check_buy_payload _ _ _ _ hB
      exact ⟨hB, h1, ⟨_, h2⟩, ⟨_, h3⟩, best, select_best_etf_mem env _ best hbest, h4⟩
    · rw [if_neg hact] at h
      simp only [Except.ok.injEq] at h
      subst h
      left
      rfl

theorem generate_signals_ok (env : StratEnv) (st : StratState) (pt : PoolType) (sig : Signal)
    (h : generate_signals env st pt = .ok sig) :
    sig.action = "HOLD" ∨
      (sig.action = "SELL" ∧ sig.etf_code = (st.pos pt).etf_code ∧ ∃ p, sig.price = some p) ∨
      (sig.action = "BUY" ∧ sig.position = (STRATEGY_PARAMS pt).initial_position ∧
        (∃ p, sig.price = some p) ∧ (∃ q, sig.stop_loss = some q) ∧
        ∃ e ∈ env.pool pt, sig.etf_code = e.etf_code) := by
  unfold generate_signals at h
  by_cases hpool : (env.pool pt).isEmpty = true
  · rw [if_pos hpool] at h
    simp only [Except.ok.injEq] at h
    subst h
    left
    rfl
  · rw [if_neg hpool] at h
    dsimp only at h
    by_cases hpos : 0 < (st.pos pt).position
    · rw [if_pos hpos] at h
      cases hcs : check_sell_signal (env.close (st.pos pt).etf_code) (st.pos pt)
          st.transaction_history (STRATEGY_PARAMS pt) (st.pos pt).etf_code with
      | error e =>
        rw [hcs] at h
        simp [Except.map, Except.bind] at h
      | ok s0 =>
        rw [hcs] at h
        simp only [Except.map, Except.bind] at h
        by_cases hs0 : (s0.action == "SELL") = true
        · rw [if_pos hs0] at h
          simp only [Except.ok.injEq] at h
          subst h
          right
          left
          obtain ⟨hc, hp⟩ := check_sell_signal_ok _ _ _ _ _ _ hcs
          exact ⟨eq_of_beq hs0, hc, hp (eq_of_beq hs0)⟩
        · rw [if_neg hs0] at h
          rcases generate_buy_branch_ok env pt sig h with h1 | h2
          · left; exact h1
          · right; right; exact h2
    · rw [if_neg hpos] at h
      simp only [Except.bind] at h
      rcases generate_buy_branch_ok env pt sig h with h1 | h2
      · left; exact h1
      · right; right; exact h2

theorem execute_sell_state (sig : Signal) (pt : PoolType) (st : StratState)
    (r : ExecResult) (st' : StratState) (h : execute_sell sig pt st = .ok (r, st')) :
    st' = st ∨ ∃ tx, st' = (st.addTx tx).setPos pt flatPosition := by
  unfold execute_sell at h
  dsimp only at h
  split_ifs at h with hmis
  · left
    simp only [Except.ok.injEq, Prod.mk.injEq] at h
    exact h.2.symm
  · cases hp : sig.price with
    | none =>
      rw [hp] at h
      exact absurd h (by simp)
    | some p =>
      rw [hp] at h
      right
      simp only [Except.ok.injEq, Prod.mk.injEq] at h
      exact ⟨_, h.2.symm⟩

theorem execute_buy_body_state (sig : Signal) (pt : PoolType) (st : StratState)
    (r : ExecResult) (st' : StratState) (h : execute_buy_body sig pt st = .ok (r, st')) :
    ∃ p q tx, st' = (st.setPos pt
      { etf_code := sig.etf_code, position := sig.position, avg_price := p,
        stop_loss := q }).addTx tx := by
  unfold execute_buy_body at h
  cases hp : sig.price with
  | none =>
    rw [hp] at h
    exact absurd h (by simp)
  | some p =>
    cases hq : sig.stop_loss with
    | none =>
      rw [hp, hq] at h
      exact absurd h (by simp)
    | some q =>
      rw [hp, hq] at h
      dsimp only at h
      simp only [Except.ok.injEq, Prod.mk.injEq] at h
      exact ⟨p, q, _, h.2.symm⟩

theorem execute_buy_state (sig : Signal) (pt : PoolType) (st : StratState)
    (r : ExecResult) (st' : StratState) (h : execute_buy sig pt st = .ok (r, st')) :
    st' = st ∨ ∃ p q tx, st' = (st.setPos pt
      { etf_code := sig.etf_code, position := sig.position, avg_price := p,
        stop_loss := q }).addTx tx := by
  unfold execute_buy at h
  dsimp only at h
  split_ifs at h with hrot
  · have hrs : execute_sell
        { action := "SELL", etf_code := (st.pos pt).etf_code,
          position := 0, reason := "换仓操作" } pt st = .error "KeyError: price" := by
      unfold execute_sell
      rw [if_neg (fun hcon => hcon rfl)]
    rw [hrs] at h
    simp [Except.bind] at h
  · right
    exact execute_buy_body_state sig pt st r st' h

theorem execute_strategy_state (env : StratEnv) (st : StratState) (pt : PoolType)
    (r : ExecResult) (st' : StratState) (h : execute_strategy env st pt = .ok (r, st')) :
    st' = st ∨
      (∃ e ∈ env.pool pt, ∃ p q tx,
        st' = (st.setPos pt
          { etf_code := e.etf_code,
            position := (STRATEGY_PARAMS pt).initial_position, avg_price := p,
            stop_loss := q }).addTx tx) ∨
      ∃ tx, st' = (st.addTx tx).setPos pt flatPosition := by
  unfold execute_strategy at h
  cases hg : generate_signals env st pt with
  | error e =>
    rw [hg] at h
    simp [Except.bind] at h
  | ok sig =>
    rw [hg] at h
    simp only [Except.bind] at h
    rcases generate_signals_ok env st pt sig hg with hH | ⟨hS, hcode, hp⟩ |
      ⟨hB, hpos, hpr, hsl, e, he, hce⟩
    · rw [if_neg (by simp [hH]), if_neg (by simp [hH])] at h
      left
      simp only [Except.ok.injEq, Prod.mk.injEq] at h
      exact h.2.symm
    · rw [if_neg (by simp [hS]), if_pos (by simp [hS])] at h
      rcases execute_sell_state sig pt st r st' h with h1 | h2
      · left; exact h1
      · right; right; exact h2
    · rw [if_pos (by simp [hB])] at h
      rcases execute_buy_state sig pt st r st' h with h1 | ⟨p, q, tx, h2⟩
      · left; exact h1
      · right; left
        refine ⟨e, he, p, q, tx, ?_⟩
        rw [h2, hce, hpos]

theorem run_strategy_inv (P : StratState → Prop) (steps : List (StratEnv × PoolType))
    (hstep : ∀ p ∈ steps, ∀ st r st',
      execute_strategy p.1 st p.2 = .ok (r, st') → P st → P st') :
    ∀ st, P st → P (run_strategy steps st) := by
  induction steps with
  | nil => intro st h; exact h
  | cons p rest ih =>
    obtain ⟨env, pt⟩ := p
    intro st h
    unfold run_strategy
    cases hx : execute_strategy env st pt with
    | ok pr =>
      exact ih (fun q hq st1 r st1' hx1 hP => hstep q (List.mem_cons_of_mem _ hq) st1 r st1' hx1 hP)
        pr.2 (hstep (env, pt) (List.mem_cons_self _ _) st pr.1 pr.2 (by rw [hx]) h)
    | error e =>
      exact ih (fun q hq st1 r st1' hx1 hP => hstep q (List.mem_cons_of_mem _ hq) st1 r st1' hx1 hP)
        st h

/-- C9: starting from the initial flat state, after any sequence of
evaluation cycles each portfolio's position fraction is either 0 or exactly
its class's `initial_position` (3/10 for stable, 1/5 for aggressive) — the
configured add-on fractions are never applied — and in particular the
`max_position` bound is never reached by any state the transitions produce
(no transition consults it). -/
theorem position_fraction_range (steps : List (StratEnv × PoolType)) :
    ((run_strategy steps initial_state).stablePos.position = 0 ∨
      (run_strategy steps initial_state).stablePos.position =
        (STRATEGY_PARAMS .stable).initial_position) ∧
    ((run_strategy steps initial_state).aggressivePos.position = 0 ∨
      (run_strategy steps initial_state).aggressivePos.position =
        (STRATEGY_PARAMS .aggressive).initial_position) ∧
    (run_strategy steps initial_state).stablePos.position <
      (STRATEGY_PARAMS .stable).max_position ∧
    (run_strategy steps initial_state).aggressivePos.position <
      (STRATEGY_PARAMS .aggressive).max_position := by
  have hstep : ∀ p ∈ steps, ∀ st r st',
      execute_strategy p.1 st p.2 = .ok (r, st') →
      ((st.stablePos.position = 0 ∨
          st.stablePos.position = (STRATEGY_PARAMS .stable).initial_position) ∧
        (st.aggressivePos.position = 0 ∨
          st.aggressivePos.position = (STRATEGY_PARAMS .aggressive).initial_position)) →
      ((st'.stablePos.position = 0 ∨
          st'.stablePos.position = (STRATEGY_PARAMS .stable).initial_position) ∧
        (st'.aggressivePos.position = 0 ∨
          st'.aggressivePos.position = (STRATEGY_PARAMS .aggressive).initial_position)) := by
    intro p hp st r st' hx hP
    obtain ⟨penv, ppt⟩ := p
    rcases execute_strategy_state penv st ppt r st' hx with h1 | ⟨e, he, pr, q, tx, h2⟩ |
      ⟨tx, h2⟩
    · subst h1; exact hP
    · subst h2
      cases ppt
      · exact ⟨Or.inr rfl, hP.2⟩
      · exact ⟨hP.1, Or.inr rfl⟩
    · subst h2
      cases ppt
      · exact ⟨Or.inl rfl, hP.2⟩
      · exact ⟨hP.1, Or.inl rfl⟩
  have hP := run_strategy_inv (fun s =>
      ((s.stablePos.position = 0 ∨
          s.stablePos.position = (STRATEGY_PARAMS .stable).initial_position) ∧
        (s.aggressivePos.position = 0 ∨
          s.aggressivePos.position = (STRATEGY_PARAMS .aggressive).initial_position)))
    steps hstep initial_state ⟨Or.inl rfl, Or.inl rfl⟩
  refine ⟨hP.1, hP.2, ?_, ?_⟩
  · rcases hP.1 with h | h <;> rw [h] <;> norm_num [STRATEGY_PARAMS]
  · rcases hP.2 with h | h <;> rw [h] <;> norm_num [STRATEGY_PARAMS]


/-- C4: the flat/held invariant — the held-instrument identifier is the
empty string exactly when the position size is 0 — holds at initialization
and after every executed BUY, SELL or HOLD cycle, for every portfolio
class, provided every candidate-pool instrument carries a non-empty
identifier (the empty string is reserved as the flat marker). -/
theorem position_code_iff_size (steps : List (StratEnv × PoolType))
    (hwf : ∀ p ∈ steps, ∀ pt : PoolType, ∀ e ∈ p.1.pool pt, e.etf_code ≠ "") :
    ((initial_state.stablePos.etf_code = "" ↔ initial_state.stablePos.position = 0) ∧
      (initial_state.aggressivePos.etf_code = "" ↔
        initial_state.aggressivePos.position = 0)) ∧
    (((run_strategy steps initial_state).stablePos.etf_code = "" ↔
        (run_strategy steps initial_state).stablePos.position = 0) ∧
      ((run_strategy steps initial_state).aggressivePos.etf_code = "" ↔
        (run_strategy steps initial_state).aggressivePos.position = 0)) := by
  constructor
  · exact ⟨by simp [initial_state, flatPosition], by simp [initial_state, flatPosition]⟩
  · have hstep : ∀ p ∈ steps, ∀ st r st',
        execute_strategy p.1 st p.2 = .ok (r, st') →
        ((st.stablePos.etf_code = "" ↔ st.stablePos.position = 0) ∧
          (st.aggressivePos.etf_code = "" ↔ st.aggressivePos.position = 0)) →
        ((st'.stablePos.etf_code = "" ↔ st'.stablePos.position = 0) ∧
          (st'.aggressivePos.etf_code = "" ↔ st'.aggressivePos.position = 0)) := by
      intro p hp st r st' hx hQ
      obtain ⟨penv, ppt⟩ := p
      rcases execute_strategy_state penv st ppt r st' hx with h1 | ⟨e, he, pr, q, tx, h2⟩ |
        ⟨tx, h2⟩
      · subst h1; exact hQ
      · have hcode : e.etf_code ≠ "" := hwf (penv, ppt) hp ppt e he
        have hinitpos : (STRATEGY_PARAMS ppt).initial_position ≠ 0 := by
          cases ppt <;> norm_num [STRATEGY_PARAMS]
        subst h2
        cases ppt
        · exact ⟨⟨fun hcon => absurd hcon hcode, fun hcon => absurd hcon hinitpos⟩, hQ.2⟩
        · exact ⟨hQ.1, ⟨fun hcon => absurd hcon hcode, fun hcon => absurd hcon hinitpos⟩⟩
      · subst h2
        cases ppt
        · exact ⟨⟨fun _ => rfl, fun _ => rfl⟩, hQ.2⟩
        · exact ⟨hQ.1, ⟨fun _ => rfl, fun _ => rfl⟩⟩
    exact run_strategy_inv (fun s =>
        ((s.stablePos.etf_code = "" ↔ s.stablePos.position = 0) ∧
          (s.aggressivePos.etf_code = "" ↔ s.aggressivePos.position = 0)))
      steps hstep initial_state
      ⟨by simp [initial_state, flatPosition], by simp [initial_state, flatPosition]⟩

/-- C4 witness: the invariant instantiated on one concrete evaluation cycle
over a one-instrument candidate pool. -/
theorem position_code_iff_size_witness :
    (∀ p ∈ [(witnessEnv, PoolType.stable)], ∀ pt : PoolType,
        ∀ e ∈ p.1.pool pt, e.etf_code ≠ "") ∧
    (((initial_state.stablePos.etf_code = "" ↔ initial_state.stablePos.position = 0) ∧
      (initial_state.aggressivePos.etf_code = "" ↔
        initial_state.aggressivePos.position = 0)) ∧
    (((run_strategy [(witnessEnv, PoolType.stable)] initial_state).stablePos.etf_code = "" ↔
        (run_strategy [(witnessEnv, PoolType.stable)] initial_state).stablePos.position = 0) ∧
      ((run_strategy [(witnessEnv, PoolType.stable)] initial_state).aggressivePos.etf_code
          = "" ↔
        (run_strategy [(witnessEnv, PoolType.stable)]
          initial_state).aggressivePos.position = 0))) := by
  have hwf : ∀ p ∈ [(witnessEnv, PoolType.stable)], ∀ pt : PoolType,
      ∀ e ∈ p.1.pool pt, e.etf_code ≠ "" := by
    intro p hp pt e he
    rcases List.mem_singleton.1 hp with rfl
    cases pt
    · simp [witnessEnv] at he
      simp [he]
    · simp [witnessEnv] at he
  exact ⟨hwf, position_code_iff_size [(witnessEnv, PoolType.stable)] hwf⟩

end Fishbowl
